import Mathlib

/-! # dart_content_handler: launcher and snapshotter

A shallow embedding of `application_runner_impl.cc` (bundle extraction and the
launch sequence of `RunApplication`) and of `snapshotter/main.cc` (command-line
validation, the VM-image-only path and the dependency file), followed by the
properties established about them.

Conventions of the embedding:
* a `std::string` is a Lean `String`; the characters searched for are ASCII, so
  positions and substrings agree with the byte-level ones of the source;
* pointers and handles are natural numbers, `0` being `NULL`;
* `uint64_t` values are naturals below `2 ^ 64`, `intptr_t` values are integers
  in `[-2 ^ 63, 2 ^ 63)`; every conversion of the source is written out;
* calls into the kernel, the dynamic loader, the Dart VM and the file system are
  represented by their outcomes, collected in an environment structure, and the
  calls made are recorded in a trace of events.
-/

namespace dart_content_handler

/-! ## Machine integers -/

/-- Conversion of an integer value to `uint64_t` (reduction modulo `2 ^ 64`). -/
def toUint64 (x : Int) : Nat := (x % 2 ^ 64).toNat

/-- Conversion of a `uint64_t` value to the signed 64-bit `intptr_t`. -/
def toIntptr (n : Nat) : Int :=
  if n % 2 ^ 64 < 2 ^ 63 then ((n % 2 ^ 64 : Nat) : Int)
  else ((n % 2 ^ 64 : Nat) : Int) - 2 ^ 64

/-- The status `ZX_OK` of `zx_status_t`. -/
def ZX_OK : Int := 0

/-- The four out-parameters that `ExtractSnapshots` fills in. -/
structure Snapshots where
  isolate_snapshot_data : Nat
  isolate_snapshot_instructions : Nat
  script_snapshot : Nat
  script_snapshot_len : Int
deriving DecidableEq, Repr

/-! ## `GetLabelFromURL` -/

/-- The position `std::string::rfind(c)` returns: the greatest index holding `c`,
or `none` for `std::string::npos`. -/
def rfind (s : List Char) (c : Char) : Option Nat :=
  match s with
  | [] => none
  | x :: xs =>
    match rfind xs c with
    | some i => some (i + 1)
    | none => if x = c then some 0 else none

/-- The diagnostic label derived from a URL. -/
def GetLabelFromURL (url : String) : String :=
  match rfind url.data '/' with
  | none => url
  | some last_slash =>
    if last_slash + 1 = url.data.length then url
    else String.mk (url.data.drop (last_slash + 1))

/-! ## `RunApplication` -/

/-- The calls `RunApplication` makes, in the order it makes them. -/
inductive Event where
  | setProcessName (label : String)
  | setBundleName (label : String)
  | extractSnapshots (ok : Bool)
  | newController (snapshots : Snapshots) (url : String)
  | createIsolate (ok : Bool)
  | postTask
  | loopRun
  | main (ok : Bool)
  | postQuitTask
  | loopReturned
  | sendReturnCode
deriving DecidableEq, Repr

/-- The outcomes a launch depends on: the result of `ExtractSnapshots` on the
bundle (its return value and the out-parameters it leaves), of
`DartApplicationController::CreateIsolate` and of
`DartApplicationController::Main`, and whether the call `loop.Run()` returns
(it does not when the loop is never made to stop, as with an application that
never ends). -/
structure Launch where
  extractSnapshots : Snapshots → Bool × Snapshots
  createIsolate : Bool
  main : Bool
  loopReturns : Bool

/-- The task posted by `RunApplication`: call `Main`, and post a quit task when
it fails. -/
def mainTask (l : Launch) : List Event :=
  if !l.main then [Event.main false, Event.postQuitTask] else [Event.main true]

/-- The launch sequence on the spawned thread. The task posted is run inside
`loop.Run()`; what follows `loop.Run()` in the source, `app.SendReturnCode()`,
is reached only when `loop.Run()` returns. -/
def RunApplication (l : Launch) (resolved_url : String) : List Event :=
  let url := resolved_url
  let label := "dart:" ++ GetLabelFromURL url
  let names := [Event.setProcessName label, Event.setBundleName label]
  let init : Snapshots := ⟨0, 0, 0, 0⟩
  let r := l.extractSnapshots init
  if !r.1 then names ++ [Event.extractSnapshots false]
  else
    let pre := names ++ [Event.extractSnapshots true, Event.newController r.2 url]
    if l.createIsolate then
      let running :=
        pre ++ [Event.createIsolate true, Event.postTask, Event.loopRun] ++ mainTask l
      if l.loopReturns then running ++ [Event.loopReturned, Event.sendReturnCode]
      else running
    else pre ++ [Event.createIsolate false]

/-- The labels given to the process and to the bundle, in order. -/
def appliedLabels (t : List Event) : List String :=
  t.filterMap fun e =>
    match e with
    | Event.setProcessName l => some l
    | Event.setBundleName l => some l
    | _ => none

/-! ## `ExtractSnapshots` -/

/-- The calls `ExtractSnapshots` makes on the bundle and on the dynamic loader. -/
inductive Call where
  | get_size
  | map (vmo_offset len : Nat)
  | clone (offset size : Nat)
  | dlopen_vmo (vmo : Nat)
  | dlsym (lib : Nat) (name : String)
deriving DecidableEq, Repr

/-- Outcomes of the calls `ExtractSnapshots` makes. `get_size` gives the status
and the `uint64_t` size it stores; `map` and `clone` give a status and the
address or handle they store, depending on the offset and length passed;
`dlopen_vmo` and `dlsym` give a pointer. `pagesize` is the `int` returned by
`getpagesize()`, `isolate_snapshot_buffer` the address of the linked-in isolate
snapshot. -/
structure Kernel where
  get_size : Int × Nat
  pagesize : Int
  map : Nat → Nat → Int × Nat
  clone : Nat → Nat → Int × Nat
  dlopen_vmo : Nat → Nat
  dlsym : Nat → String → Nat
  isolate_snapshot_buffer : Nat

/-- What `ExtractSnapshots` returns, the out-parameters it leaves and the calls
it made. -/
structure Extraction where
  ok : Bool
  out : Snapshots
  calls : List Call
deriving DecidableEq, Repr

/-- The expression `bundle_size - pagesize`: the `int` is converted to
`uint64_t` and the subtraction is unsigned. -/
def payloadSize (bundle_size : Nat) (pagesize : Int) : Nat :=
  toUint64 ((bundle_size : Int) - (toUint64 pagesize : Int))

namespace Aot

/-- The function `ExtractSnapshots` as built with `AOT_RUNTIME`. -/
def ExtractSnapshots (k : Kernel) (s : Snapshots) : Extraction :=
  let status := k.get_size.1
  let bundle_size := k.get_size.2
  if status ≠ ZX_OK then ⟨false, s, [Call.get_size]⟩
  else
    let pagesize := k.pagesize
    let offset := toUint64 pagesize
    let size := payloadSize bundle_size pagesize
    let status := (k.clone offset size).1
    let dylib_vmo := (k.clone offset size).2
    if status ≠ ZX_OK then ⟨false, s, [Call.get_size, Call.clone offset size]⟩
    else
      let lib := k.dlopen_vmo dylib_vmo
      let opened := [Call.get_size, Call.clone offset size, Call.dlopen_vmo dylib_vmo]
      if lib = 0 then ⟨false, s, opened⟩
      else
        let data := k.dlsym lib "_kDartIsolateSnapshotData"
        let s1 := { s with isolate_snapshot_data := data }
        let c1 := opened ++ [Call.dlsym lib "_kDartIsolateSnapshotData"]
        if data = 0 then ⟨false, s1, c1⟩
        else
          let instructions := k.dlsym lib "_kDartIsolateSnapshotInstructions"
          let s2 := { s1 with isolate_snapshot_instructions := instructions }
          let c2 := c1 ++ [Call.dlsym lib "_kDartIsolateSnapshotInstructions"]
          if instructions = 0 then ⟨false, s2, c2⟩
          else ⟨true, s2, c2⟩

end Aot

namespace Interp

/-- The function `ExtractSnapshots` as built without `AOT_RUNTIME`. -/
def ExtractSnapshots (k : Kernel) (s : Snapshots) : Extraction :=
  let s0 := { s with isolate_snapshot_data := k.isolate_snapshot_buffer,
                     isolate_snapshot_instructions := 0 }
  let status := k.get_size.1
  let bundle_size := k.get_size.2
  if status ≠ ZX_OK then ⟨false, s0, [Call.get_size]⟩
  else
    let pagesize := k.pagesize
    let vmo_offset := toUint64 pagesize
    let len := payloadSize bundle_size pagesize
    let status := (k.map vmo_offset len).1
    let addr := (k.map vmo_offset len).2
    if status ≠ ZX_OK then ⟨false, s0, [Call.get_size, Call.map vmo_offset len]⟩
    else
      ⟨true,
       { s0 with script_snapshot := addr,
                 script_snapshot_len := toIntptr (payloadSize bundle_size pagesize) },
       [Call.get_size, Call.map vmo_offset len]⟩

end Interp

/-! ## The message loop of a launch -/

/-- The tasks found in the queue of the loop of a launch: the entry-point
invocation that `RunApplication` posts, and the tasks of the application, told
apart by a number. -/
inductive Task where
  | entryPoint
  | app (id : Nat)
deriving DecidableEq, Repr

/-- What the application does to the loop: the tasks `Main` posts while it runs
and, for each application task, the tasks it posts while it runs and whether it
shuts the isolate down, upon which the VM calls `IsolateShutdownCallback`. -/
structure Application where
  mainPosts : List Nat
  posts : Nat → List Nat
  shutsDown : Nat → Bool

/-- Modelled from the spec: `fsl::MessageLoop` is not among the sources. By
sections 4.3 and 5 of the specification, tasks run to completion in FIFO
submission order, a loop instructed to stop does so immediately after the
current task, and a loop not so instructed goes on until no tasks remain, then
stops. The loop is given by its queue of pending tasks, oldest first, by the
flag a stop request raises, and by the tasks it has run so far. -/
structure MessageLoop where
  queue : List Task
  should_quit : Bool
  ran : List Task
deriving DecidableEq, Repr

/-- The loop as constructed by `fsl::MessageLoop loop;`. -/
def MessageLoop.create : MessageLoop := ⟨[], false, []⟩

/-- The call `task_runner()->PostTask(task)`: the task joins the back of the
queue. -/
def MessageLoop.PostTask (loop : MessageLoop) (task : Task) : MessageLoop :=
  { loop with queue := loop.queue ++ [task] }

/-- The call `QuitNow()`: the loop is to stop once the current task is over. -/
def MessageLoop.QuitNow (loop : MessageLoop) : MessageLoop :=
  { loop with should_quit := true }

/-- Modelled from the spec: `PostQuitTask()` of `fsl::MessageLoop` is not among
the sources. By section 4.3, step 5, when the entry point reports failure "the
loop is instructed to stop immediately after the current task". -/
def MessageLoop.PostQuitTask (loop : MessageLoop) : MessageLoop :=
  { loop with should_quit := true }

/-- Whether `loop.Run()` has returned: the loop was instructed to stop, or no
tasks remain. -/
def MessageLoop.stopped (loop : MessageLoop) : Bool :=
  loop.should_quit || loop.queue.isEmpty

/-- The application tasks `ids` are posted on the loop, in turn. -/
def postAll (ids : List Nat) (loop : MessageLoop) : MessageLoop :=
  ids.foldl (fun q id => q.PostTask (Task.app id)) loop

/-- The callback `IsolateShutdownCallback`, as far as the loop goes: after
clearing the after-task callback and destroying the microtask queue it calls
`QuitNow()`. -/
def IsolateShutdownCallback (loop : MessageLoop) : MessageLoop :=
  loop.QuitNow

/-- The task `RunApplication` posts: `if (!app.Main()) loop.PostQuitTask();`.
While it runs, `Main` posts the tasks `a.mainPosts` on the loop. -/
def entryPointTask (a : Application) (l : Launch) (loop : MessageLoop) : MessageLoop :=
  let loop := postAll a.mainPosts loop
  if !l.main then loop.PostQuitTask else loop

/-- What running one task does to the loop. -/
def runTask (a : Application) (l : Launch) (task : Task) (loop : MessageLoop) :
    MessageLoop :=
  match task with
  | Task.entryPoint => entryPointTask a l loop
  | Task.app id =>
    let loop := postAll (a.posts id) loop
    if a.shutsDown id then IsolateShutdownCallback loop else loop

/-- The call `loop.Run()`, followed for at most `fuel` tasks: as long as it has
not stopped, the loop takes the oldest task off the queue and runs it. -/
def MessageLoop.Run (a : Application) (l : Launch) : Nat → MessageLoop → MessageLoop
  | 0, loop => loop
  | fuel + 1, loop =>
    if loop.should_quit then loop
    else
      match loop.queue with
      | [] => loop
      | task :: rest =>
        MessageLoop.Run a l fuel
          (runTask a l task { loop with queue := rest, ran := loop.ran ++ [task] })

/-- Modelled from the spec: `DartApplicationController` is not among the
sources. By section 4.3 the context is constructed (step 3) before the loop is
given its first task, the entry-point invocation (step 4): constructing the
controller and creating the isolate post no task on the loop. -/
def contextCreationPosts : List Nat := []

/-- The loop of `RunApplication` once `CreateIsolate` has succeeded: the loop is
constructed, the controller is constructed and the isolate created, the
entry-point task is posted, then `loop.Run()` is followed for `fuel` tasks. -/
def launchLoop (a : Application) (l : Launch) (fuel : Nat) : MessageLoop :=
  MessageLoop.Run a l fuel
    ((postAll contextCreationPosts MessageLoop.create).PostTask Task.entryPoint)

/-! ## Concrete inputs -/

/-- An application that never ends: `Main` posts task 7, and task 7 posts
itself again each time it runs. -/
def endlessApp : Application :=
  { mainPosts := [7], posts := fun _ => [7], shutsDown := fun _ => false }

/-- A bundle of `2 ^ 63 + 4096` bytes on a machine with pages of 4096 bytes,
whose size query and mapping succeed. -/
def hugeBundle : Kernel :=
  { get_size := (ZX_OK, 2 ^ 63 + 4096)
    pagesize := 4096
    map := fun _ _ => (ZX_OK, 65536)
    clone := fun _ _ => (ZX_OK, 7)
    dlopen_vmo := fun _ => 0
    dlsym := fun _ _ => 0
    isolate_snapshot_buffer := 4096 }

/-- A bundle of three pages whose payload module opens at address 9 and exports
the two snapshot symbols at addresses 100 and 200. -/
def aotBundle : Kernel :=
  { get_size := (ZX_OK, 12288)
    pagesize := 4096
    map := fun _ _ => (ZX_OK, 65536)
    clone := fun _ _ => (ZX_OK, 7)
    dlopen_vmo := fun _ => 9
    dlsym := fun _ name =>
      if name = "_kDartIsolateSnapshotData" then 100
      else if name = "_kDartIsolateSnapshotInstructions" then 200
      else 0
    isolate_snapshot_buffer := 4096 }

/-- A bundle of three pages whose size query and mapping succeed. -/
def scriptBundle : Kernel :=
  { get_size := (ZX_OK, 12288)
    pagesize := 4096
    map := fun _ _ => (ZX_OK, 65536)
    clone := fun _ _ => (ZX_OK, 7)
    dlopen_vmo := fun _ => 0
    dlsym := fun _ _ => 0
    isolate_snapshot_buffer := 4096 }

end dart_content_handler

namespace dart_snapshotter

/-! ## The snapshotter's surroundings -/

def kHelp : String := "help"
def kPackages : String := "packages"
def kSnapshot : String := "snapshot"
def kDepfile : String := "depfile"
def kBuildOutput : String := "build-output"
def kAOTVMSnapshot : String := "aot-vm-snapshot"

/-- The lines `Usage` writes to the standard error stream. -/
def Usage : List String :=
  ["Usage: dart_snapshotter --" ++ kPackages ++ "=PACKAGES",
   "                      [ --" ++ kSnapshot ++ "=OUTPUT_SNAPSHOT ]",
   "                      [ --" ++ kDepfile ++ "=DEPFILE ]",
   "                      [ --" ++ kBuildOutput ++ "=BUILD_OUTPUT ]"
     ++ "                      [ --" ++ kAOTVMSnapshot ++ "]"
     ++ "                        MAIN_DART",
   "",
   " --" ++ kAOTVMSnapshot ++ " selects generation of a VM snapshot that "
     ++ "will be compatible with application snapshots generated by this "
     ++ "tool. Does not require a MAIN_DART.",
   " * PACKAGES is the '.packages' file that defines where to find Dart "
     ++ "packages.",
   " * OUTPUT_SNAPSHOT is the file to write the snapshot into.",
   " * DEPFILE is the file into which to write the '.d' depedendency "
     ++ "information into.",
   " * BUILD_OUTPUT determines the target name used in the ",
   "   DEPFILE. (Required if DEPFILE is provided.) "]

/-- Modelled from the spec: `ftl::CommandLine` is not among the sources. A parsed
command line is its options `--name=value` in the order given (`--name` alone
has the empty value) and its positional arguments. -/
structure CommandLine where
  options : List (String × String)
  positional_args : List String
deriving DecidableEq, Repr

/-- The call `CommandLine::HasOption(name, nullptr)`. -/
def CommandLine.HasOption (c : CommandLine) (name : String) : Bool :=
  c.options.any fun o => o.1 == name

/-- The call `CommandLine::GetOptionValue(name, &value)`: `some value` when it returns
true, the value being that of the last occurrence of the option; `none` when it
returns false and leaves `value` alone. -/
def CommandLine.GetOptionValue (c : CommandLine) (name : String) : Option String :=
  (c.options.reverse.find? fun o => o.1 == name).map Prod.snd

/-- The order `std::less<std::string>` of a `std::set<std::string>`:
lexicographic comparison of the characters. -/
def stringLess (a b : String) : Prop := List.lt a.data b.data

instance (a b : String) : Decidable (stringLess a b) :=
  List.hasDecidableLt a.data b.data

/-- A `std::set<std::string>`, given by its elements in iteration order:
strictly ascending, hence without repetition. -/
structure StringSet where
  elems : List String
  ascending : elems.Pairwise stringLess

/-- The build options and the outcomes of the calls the snapshotter makes into
the Dart VM, the file loader and the file system. A `Bool` outcome is true when
the call succeeds (a checked handle is valid), an `Option` outcome is `none`
when the call yields an error; `createIsolate` is the isolate pointer. -/
structure World where
  aotCompiler : Bool
  dcheckOn : Bool
  setVMFlags : Bool
  initializeError : Option String
  isolate_snapshot_buffer : Nat
  createIsolate : Nat
  vmAOTSnapshot : Option String
  loadPackagesMap : String → Bool
  setLibraryTagHandler : Bool
  fetch : String → String
  loadScript : String → String → Bool
  scriptSnapshot : Option String
  finalizeLoading : Bool
  libraryImportLibrary : Bool
  precompile : Bool
  appAOTSnapshot : Option String
  dependencies : StringSet
  currentDirectory : String
  readSymbolicLink : String → Option String
  writeFile : String → String → Bool

/-- What the snapshotter does that can be observed. -/
inductive Ev where
  | usage (lines : List String)
  | error (msg : String)
  | fatal (msg : String)
  | initDartVM
  | loadPackagesMap (path : String) (ok : Bool)
  | createIsolate
  | loadScript (main_dart : String)
  | writeFile (path : String) (data : String) (ok : Bool)
deriving DecidableEq, Repr

/-- How the process ends: `main` returns a code, or a fatal check aborts it. -/
inductive Exit where
  | code (n : Int)
  | fatal
deriving DecidableEq, Repr

/-- A run of the tool: what it did and how it ended. -/
structure Run where
  trace : List Ev
  exit : Exit
deriving DecidableEq, Repr

/-- The paths of the files a run wrote to (whether or not the write succeeded). -/
def writes (t : List Ev) : List String :=
  t.filterMap fun e =>
    match e with
    | Ev.writeFile path _ _ => some path
    | _ => none

/-! ## VM set-up -/

/-- The function `InitDartVM`: the events, and whether control returns to the caller. -/
def InitDartVM (w : World) : List Ev × Bool :=
  if !w.setVMFlags then ([Ev.initDartVM, Ev.fatal "Dart_SetVMFlags"], false)
  else
    match w.initializeError with
    | some error => ([Ev.initDartVM, Ev.fatal error], false)
    | none => ([Ev.initDartVM], true)

/-- The function `CreateDartIsolate`: the events, and the isolate when control returns. -/
def CreateDartIsolate (w : World) : List Ev × Option Nat :=
  if w.isolate_snapshot_buffer = 0 then ([Ev.fatal "isolate_snapshot_buffer"], none)
  else if w.createIsolate = 0 then ([Ev.createIsolate, Ev.fatal "Dart_CreateIsolate"], none)
  else ([Ev.createIsolate], some w.createIsolate)

/-- The overload `CreateSnapshot()` without arguments, which serialises the
loaded isolate: the blob, or `none` when a `DART_CHECK_VALID` aborts. -/
def CreateSnapshotBlob (w : World) : Option String :=
  if !w.aotCompiler then w.scriptSnapshot
  else if !w.finalizeLoading then none
  else if !w.libraryImportLibrary then none
  else if !w.precompile then none
  else w.appAOTSnapshot

/-! ## `WriteDepfile` -/

/-- The loop of `WriteDepfile` over the remaining dependencies, from the output
accumulated so far: the final output, or `none` when `FTL_DCHECK` aborts. -/
def depfileLoop (w : World) (current_directory : String) :
    List String → String → Option String
  | [], output => some output
  | dep :: rest, output =>
    let file := dep
    if w.dcheckOn && file.data.isEmpty then none
    else
      let file :=
        if file.data.headD (Char.ofNat 0) ≠ '/' then current_directory ++ "/" ++ file
        else file
      match w.readSymbolicLink file with
      | some resolved_file =>
        depfileLoop w current_directory rest (output ++ (" " ++ resolved_file))
      | none => depfileLoop w current_directory rest (output ++ (" " ++ file))

/-- The function `WriteDepfile`: the events, and its return value when control returns. -/
def WriteDepfile (w : World) (path build_output : String) (deps : StringSet) :
    List Ev × Option Bool :=
  let current_directory := w.currentDirectory
  let output := build_output ++ ":"
  match depfileLoop w current_directory deps.elems output with
  | none => ([Ev.fatal "!file.empty()"], none)
  | some output =>
    ([Ev.writeFile path output (w.writeFile path output)], some (w.writeFile path output))

/-- The entry of the dependency file for the dependency `d`, in the words of
the specification: with `f` being `d` when `d` starts with '/' and
`cwd + "/" + d` otherwise, the target of the link `f` when `f` is a symbolic
link, and `f` otherwise. -/
def depfileEntry (cwd : String) (link : String → Option String) (d : String) : String :=
  let f := if d.data.head? = some '/' then d else cwd ++ "/" ++ d
  match link f with
  | some target => target
  | none => f

/-- One space and the entry, for each dependency in turn. -/
def depfileEntries (cwd : String) (link : String → Option String) : List String → String
  | [] => ""
  | d :: ds => " " ++ depfileEntry cwd link d ++ depfileEntries cwd link ds

/-- The text of the dependency file in the words of the specification: the build
output, a colon, then one space and the entry for each dependency in turn. -/
def depfileText (b : String) (deps : List String) (cwd : String)
    (link : String → Option String) : String :=
  b ++ ":" ++ depfileEntries cwd link deps

/-! ## `CreateAOTVMSnapshot` and `CreateSnapshot` -/

/-- The function `CreateAOTVMSnapshot`: the VM-image-only path. -/
def CreateAOTVMSnapshot (w : World) (snapshot_path : String) : Run :=
  let i := InitDartVM w
  if !i.2 then ⟨i.1, Exit.fatal⟩
  else
    let c := CreateDartIsolate w
    match c.2 with
    | none => ⟨i.1 ++ c.1, Exit.fatal⟩
    | some isolate =>
      if isolate = 0 then ⟨i.1 ++ c.1 ++ [Ev.fatal "Failed to create isolate."], Exit.fatal⟩
      else
        match w.vmAOTSnapshot with
        | none => ⟨i.1 ++ c.1 ++ [Ev.fatal "Dart_CreateVMAOTSnapshotAsAssembly"], Exit.fatal⟩
        | some snapshot_buffer =>
          if !w.writeFile snapshot_path snapshot_buffer then
            ⟨i.1 ++ c.1 ++ [Ev.writeFile snapshot_path snapshot_buffer false,
               Ev.error ("error: Failed to write snapshot to '" ++ snapshot_path ++ "'.")],
             Exit.code 1⟩
          else ⟨i.1 ++ c.1 ++ [Ev.writeFile snapshot_path snapshot_buffer true], Exit.code 0⟩

/-- The part of `CreateSnapshot(command_line)` after the command line has been
validated: from `InitDartVM()` to the final `return 0`. -/
def compileAndWrite (w : World) (packages main_dart snapshot depfile build_output : String) :
    Run :=
  let i := InitDartVM w
  if !i.2 then ⟨i.1, Exit.fatal⟩
  else if !w.loadPackagesMap packages then
    ⟨i.1 ++ [Ev.loadPackagesMap packages false], Exit.code 1⟩
  else
    let t1 := i.1 ++ [Ev.loadPackagesMap packages true]
    let c := CreateDartIsolate w
    match c.2 with
    | none => ⟨t1 ++ c.1, Exit.fatal⟩
    | some isolate =>
      let t2 := t1 ++ c.1
      if isolate = 0 then ⟨t2 ++ [Ev.fatal "Failed to create isolate."], Exit.fatal⟩
      else if !w.setLibraryTagHandler then
        ⟨t2 ++ [Ev.fatal "Dart_SetLibraryTagHandler"], Exit.fatal⟩
      else if !w.loadScript main_dart (w.fetch main_dart) then
        ⟨t2 ++ [Ev.loadScript main_dart, Ev.fatal "Dart_LoadScript"], Exit.fatal⟩
      else
        let t3 := t2 ++ [Ev.loadScript main_dart]
        match CreateSnapshotBlob w with
        | none => ⟨t3 ++ [Ev.fatal "CreateSnapshot"], Exit.fatal⟩
        | some snapshot_blob =>
          if !snapshot.data.isEmpty && !w.writeFile snapshot snapshot_blob then
            ⟨t3 ++ [Ev.writeFile snapshot snapshot_blob false,
               Ev.error ("error: Failed to write snapshot to '" ++ snapshot ++ "'.")],
             Exit.code 1⟩
          else
            let t4 :=
              if !snapshot.data.isEmpty then t3 ++ [Ev.writeFile snapshot snapshot_blob true]
              else t3
            if depfile.data.isEmpty then ⟨t4, Exit.code 0⟩
            else
              let d := WriteDepfile w depfile build_output w.dependencies
              match d.2 with
              | none => ⟨t4 ++ d.1, Exit.fatal⟩
              | some ok =>
                if !ok then
                  ⟨t4 ++ d.1 ++
                     [Ev.error ("error: Failed to write depfile to '" ++ depfile ++ "'.")],
                   Exit.code 1⟩
                else ⟨t4 ++ d.1, Exit.code 0⟩

/-- The function `CreateSnapshot(const ftl::CommandLine&)`, whose result `main` returns. -/
def CreateSnapshot (w : World) (command_line : CommandLine) : Run :=
  if command_line.HasOption kHelp then ⟨[Ev.usage Usage], Exit.code 0⟩
  else
    match command_line.GetOptionValue kAOTVMSnapshot with
    | some vm_snapshot_path => CreateAOTVMSnapshot w vm_snapshot_path
    | none =>
      if command_line.positional_args.isEmpty then ⟨[Ev.usage Usage], Exit.code 1⟩
      else
        match command_line.GetOptionValue kPackages with
        | none => ⟨[Ev.error "error: Need --packages"], Exit.code 1⟩
        | some packages =>
          let args := command_line.positional_args
          if args.length ≠ 1 then
            ⟨[Ev.error ("error: Need one position argument. Got " ++ Nat.repr args.length
                ++ ".")], Exit.code 1⟩
          else
            let main_dart := args.headD ""
            let snapshot := (command_line.GetOptionValue kSnapshot).getD ""
            if snapshot.data.isEmpty then ⟨[Ev.error "error: Need --snapshot."], Exit.code 1⟩
            else
              let depfile := (command_line.GetOptionValue kDepfile).getD ""
              let build_output :=
                if (command_line.GetOptionValue kDepfile).isSome then
                  (command_line.GetOptionValue kBuildOutput).getD ""
                else ""
              if (command_line.GetOptionValue kDepfile).isSome
                  && !(command_line.GetOptionValue kBuildOutput).isSome then
                ⟨[Ev.error "error: Need --build-output if --depfile is specified."],
                 Exit.code 1⟩
              else compileAndWrite w packages main_dart snapshot depfile build_output

/-! ## Concrete inputs -/

/-- The interpretable-build tool in a world where every call succeeds; two files
were loaded, the first of them a symbolic link with a relative target. -/
def okWorld : World :=
  { aotCompiler := false
    dcheckOn := false
    setVMFlags := true
    initializeError := none
    isolate_snapshot_buffer := 1
    createIsolate := 1
    vmAOTSnapshot := some "vm-image"
    loadPackagesMap := fun _ => true
    setLibraryTagHandler := true
    fetch := fun _ => "void main();"
    loadScript := fun _ _ => true
    scriptSnapshot := some "script-image"
    finalizeLoading := true
    libraryImportLibrary := true
    precompile := true
    appAOTSnapshot := some "app-image"
    dependencies := ⟨["/src/link.dart", "main.dart"], by decide⟩
    currentDirectory := "/work"
    readSymbolicLink := fun f => if f = "/src/link.dart" then some "real.dart" else none
    writeFile := fun _ _ => true }

/-- The command line `--help --depfile=out.d`. -/
def helpDepfileLine : CommandLine := ⟨[("help", ""), ("depfile", "out.d")], []⟩

/-- The command line `--aot-vm-snapshot=vm.S --depfile=out.d`. -/
def vmDepfileLine : CommandLine := ⟨[("aot-vm-snapshot", "vm.S"), ("depfile", "out.d")], []⟩

/-- The command line `--packages=.packages --snapshot=out.snapshot --depfile=out.d
main.dart`. -/
def depfileOnlyLine : CommandLine :=
  ⟨[("packages", ".packages"), ("snapshot", "out.snapshot"), ("depfile", "out.d")],
   ["main.dart"]⟩

/-- The command line `--aot-vm-snapshot=vm.S --snapshot=out.snapshot
--depfile=out.d --build-output=out`. -/
def vmOnlyLine : CommandLine :=
  ⟨[("aot-vm-snapshot", "vm.S"), ("snapshot", "out.snapshot"), ("depfile", "out.d"),
    ("build-output", "out")], []⟩

/-- The command line `--snapshot=out.snapshot main.dart`. -/
def noPackagesLine : CommandLine := ⟨[("snapshot", "out.snapshot")], ["main.dart"]⟩

/-- The command line `--packages=.packages main.dart`. -/
def noSnapshotLine : CommandLine := ⟨[("packages", ".packages")], ["main.dart"]⟩

end dart_snapshotter

/-! # Properties -/

namespace dart_content_handler

/-! ## Auxiliary facts on `rfind` -/

theorem rfind_eq_none_iff (s : List Char) (c : Char) : rfind s c = none ↔ c ∉ s := by
  induction s with
  | nil => simp [rfind]
  | cons x xs ih =>
    unfold rfind
    cases h : rfind xs c with
    | none =>
      have hc : c ∉ xs := ih.mp h
      by_cases hx : x = c
      · simp [hx]
      · have hx2 : ¬ c = x := fun e => hx e.symm
        simp [hx, hc, hx2]
    | some i =>
      have hc : c ∈ xs := by
        by_contra hn
        rw [ih.mpr hn] at h
        cases h
      simp [hc]

theorem rfind_some_split (s : List Char) (c : Char) :
    ∀ i, rfind s c = some i →
      i < s.length ∧ s = s.take i ++ c :: s.drop (i + 1) ∧ c ∉ s.drop (i + 1) := by
  induction s with
  | nil => intro i h; simp [rfind] at h
  | cons x xs ih =>
    intro i h
    unfold rfind at h
    cases hr : rfind xs c with
    | none =>
      rw [hr] at h
      by_cases hx : x = c
      · simp [hx] at h
        subst h
        have hc : c ∉ xs := (rfind_eq_none_iff xs c).mp hr
        simp [hx, hc]
      · simp [hx] at h
    | some j =>
      rw [hr] at h
      simp at h
      subst h
      obtain ⟨h1, h2, h3⟩ := ih j hr
      refine ⟨by simp; omega, ?_, by simpa using h3⟩
      simp only [List.take_succ_cons, List.drop_succ_cons, List.cons_append]
      rw [← h2]

/-! ## The launch sequence -/

/-- C2: `GetLabelFromURL` yields the final path segment of the URL. When the URL
contains a '/' and does not end in one, the result is what follows the last '/':
it is not empty and holds no '/'. When the URL ends in '/', and also when it holds
no '/', the result is the URL itself. `RunApplication` names the process, then the
bundle, "dart:" followed by that result, and applies no other label. -/
theorem GetLabelFromURL_final_segment (url : String) :
    ('/' ∈ url.data → url.data.getLast? ≠ some '/' →
        (∃ pre, url.data = pre ++ '/' :: (GetLabelFromURL url).data) ∧
          '/' ∉ (GetLabelFromURL url).data ∧ (GetLabelFromURL url).data ≠ []) ∧
      (url.data.getLast? = some '/' → GetLabelFromURL url = url) ∧
      ('/' ∉ url.data → GetLabelFromURL url = url) ∧
      ∀ l : Launch, ∃ rest,
        RunApplication l url =
            Event.setProcessName ("dart:" ++ GetLabelFromURL url) ::
              Event.setBundleName ("dart:" ++ GetLabelFromURL url) :: rest ∧
          appliedLabels rest = [] := by
  refine ⟨?_, ?_, ?_, ?_⟩
  · intro hmem hlast
    cases hr : rfind url.data '/' with
    | none => exact absurd hmem ((rfind_eq_none_iff _ _).mp hr)
    | some i =>
      obtain ⟨hlt, hsplit, hnot⟩ := rfind_some_split _ _ i hr
      have hne : i + 1 ≠ url.data.length := by
        intro he
        apply hlast
        have hd : url.data.drop (i + 1) = [] := by
          rw [he]; exact List.drop_length _
        rw [hd] at hsplit
        rw [hsplit]
        simp
      have hval : GetLabelFromURL url = String.mk (url.data.drop (i + 1)) := by
        unfold GetLabelFromURL
        rw [hr]
        exact if_neg hne
      rw [hval]
      refine ⟨⟨url.data.take i, hsplit⟩, hnot, ?_⟩
      intro hd
      have hlen : (url.data.drop (i + 1)).length = 0 := by
        have : url.data.drop (i + 1) = [] := hd
        rw [this]; rfl
      rw [List.length_drop] at hlen
      omega
  · intro hlast
    unfold GetLabelFromURL
    cases hr : rfind url.data '/' with
    | none => rfl
    | some i =>
      obtain ⟨hlt, hsplit, hnot⟩ := rfind_some_split _ _ i hr
      have he : i + 1 = url.data.length := by
        by_contra hne
        have hpos : url.data.drop (i + 1) ≠ [] := by
          intro hd
          have hlen : (url.data.drop (i + 1)).length = 0 := by rw [hd]; rfl
          rw [List.length_drop] at hlen
          omega
        have hl : (url.data.drop (i + 1)).getLast? = some '/' := by
          rw [hsplit] at hlast
          rw [List.getLast?_append_of_ne_nil _ (by simp)] at hlast
          cases hxs : url.data.drop (i + 1) with
          | nil => exact absurd hxs hpos
          | cons y ys =>
            rw [hxs, List.getLast?_cons_cons] at hlast
            exact hlast
        exact hnot (List.mem_of_getLast?_eq_some hl)
      exact if_pos he
  · intro hno
    unfold GetLabelFromURL
    rw [(rfind_eq_none_iff _ _).mpr hno]
  · intro l
    unfold RunApplication mainTask appliedLabels
    cases he : (l.extractSnapshots ⟨0, 0, 0, 0⟩).1 <;>
      cases hc : l.createIsolate <;> cases hm : l.main <;> cases hr : l.loopReturns <;>
      simp [he, hc, hm, hr]

/-- C2 at `file:///system/apps/hello`: the label is `hello`. -/
theorem GetLabelFromURL_final_segment_witness :
    '/' ∈ "file:///system/apps/hello".data ∧
      "file:///system/apps/hello".data.getLast? ≠ some '/' ∧
      (∃ pre, "file:///system/apps/hello".data =
          pre ++ '/' :: (GetLabelFromURL "file:///system/apps/hello").data) ∧
      GetLabelFromURL "file:///system/apps/hello" = "hello" ∧
      ("file:///system/apps/".data.getLast? = some '/' ∧
        GetLabelFromURL "file:///system/apps/" = "file:///system/apps/") ∧
      ('/' ∉ "hello".data ∧ GetLabelFromURL "hello" = "hello") :=
  ⟨by decide, by decide,
   ((GetLabelFromURL_final_segment "file:///system/apps/hello").1 (by decide) (by decide)).1,
   by decide,
   ⟨by decide, (GetLabelFromURL_final_segment "file:///system/apps/").2.1 (by decide)⟩,
   ⟨by decide, (GetLabelFromURL_final_segment "hello").2.2.1 (by decide)⟩⟩

/-! ## Extraction -/

theorem toUint64_natCast (n : Nat) (h : n < 2 ^ 64) : toUint64 (n : Int) = n := by
  unfold toUint64
  omega

theorem payloadSize_eq_sub (S p : Nat) (hp : p < S) (hS : S < 2 ^ 64) :
    payloadSize S (p : Int) = S - p := by
  unfold payloadSize
  rw [toUint64_natCast p (by omega)]
  unfold toUint64
  omega

theorem toIntptr_of_lt (n : Nat) (h : n < 2 ^ 63) : toIntptr n = (n : Int) := by
  unfold toIntptr
  have h1 : n % 2 ^ 64 = n := Nat.mod_eq_of_lt (by omega)
  rw [h1, if_pos h]

/-- C3, as amended: for a page size `p` (the non-negative `int` of `getpagesize`)
and a bundle size `S` with `p < S < 2 ^ 64`, when the size query and the mapping
succeed, interpretable-mode `ExtractSnapshots` returns true after mapping the
bundle from offset exactly `p` with length `S - p`, and stores the mapped
address; when moreover `S - p < 2 ^ 63`, the script snapshot length it reports
equals `S - p`. -/
theorem ExtractSnapshots_interp_payload (k : Kernel) (s : Snapshots) (S p : Nat)
    (hsize : k.get_size = (ZX_OK, S)) (hpage : k.pagesize = (p : Int))
    (hp : p < S) (hS : S < 2 ^ 64) (hmap : (k.map p (S - p)).1 = ZX_OK) :
    (Interp.ExtractSnapshots k s).ok = true ∧
      (Interp.ExtractSnapshots k s).calls = [Call.get_size, Call.map p (S - p)] ∧
      (Interp.ExtractSnapshots k s).out.script_snapshot = (k.map p (S - p)).2 ∧
      (S - p < 2 ^ 63 →
        (Interp.ExtractSnapshots k s).out.script_snapshot_len = ((S - p : Nat) : Int)) := by
  have h1 : toUint64 k.pagesize = p := by rw [hpage]; exact toUint64_natCast p (by omega)
  have h2 : payloadSize k.get_size.2 k.pagesize = S - p := by
    rw [hsize, hpage]; exact payloadSize_eq_sub S p hp hS
  have h3 : k.get_size.1 = ZX_OK := by rw [hsize]
  unfold Interp.ExtractSnapshots
  simp only [h1, h2, h3, hmap, ne_eq, not_true_eq_false, if_false]
  refine ⟨trivial, trivial, trivial, ?_⟩
  intro hlt
  exact toIntptr_of_lt _ hlt

/-- C3 as amended, on a bundle of three pages: the payload of two pages is mapped
from offset 4096 and its length 8192 is reported. -/
theorem ExtractSnapshots_interp_payload_witness :
    (Interp.ExtractSnapshots scriptBundle ⟨0, 0, 0, 0⟩).ok = true ∧
      (Interp.ExtractSnapshots scriptBundle ⟨0, 0, 0, 0⟩).calls =
        [Call.get_size, Call.map 4096 (12288 - 4096)] ∧
      (Interp.ExtractSnapshots scriptBundle ⟨0, 0, 0, 0⟩).out.script_snapshot =
        (scriptBundle.map 4096 (12288 - 4096)).2 ∧
      (Interp.ExtractSnapshots scriptBundle ⟨0, 0, 0, 0⟩).out.script_snapshot_len =
        ((12288 - 4096 : Nat) : Int) :=
  have h := ExtractSnapshots_interp_payload scriptBundle ⟨0, 0, 0, 0⟩ 12288 4096 rfl rfl
    (by decide) (by decide) rfl
  ⟨h.1, h.2.1, h.2.2.1, h.2.2.2 (by decide)⟩

/-- C3 fails as stated: for the bundle size `S = 2 ^ 63 + 4096` and the page size
4096, the size query and the mapping succeeding, `ExtractSnapshots` returns true
and reports the length `-2 ^ 63`, which is not `S - 4096 = 2 ^ 63`. -/
theorem ExtractSnapshots_interp_len_counterexample :
    hugeBundle.get_size = (ZX_OK, 2 ^ 63 + 4096) ∧ hugeBundle.pagesize = 4096 ∧
      (4096 : Int) < ((2 ^ 63 + 4096 : Nat) : Int) ∧ 2 ^ 63 + 4096 < 2 ^ 64 ∧
      (hugeBundle.map 4096 (2 ^ 63)).1 = ZX_OK ∧
      (Interp.ExtractSnapshots hugeBundle ⟨0, 0, 0, 0⟩).ok = true ∧
      (Interp.ExtractSnapshots hugeBundle ⟨0, 0, 0, 0⟩).calls =
        [Call.get_size, Call.map 4096 (2 ^ 63)] ∧
      (Interp.ExtractSnapshots hugeBundle ⟨0, 0, 0, 0⟩).out.script_snapshot_len = -2 ^ 63 ∧
      (Interp.ExtractSnapshots hugeBundle ⟨0, 0, 0, 0⟩).out.script_snapshot_len ≠
        ((2 ^ 63 + 4096 : Nat) : Int) - 4096 := by
  decide

/-- C4: precompiled-mode `ExtractSnapshots`, over the results of the size query,
the clone, the module open and the symbol lookups. It returns false whenever the
lookup of `_kDartIsolateSnapshotData` or of `_kDartIsolateSnapshotInstructions`
in the opened module yields null. When the size query and the clone succeed, the
module opens and both lookups are non-null, it returns true, with
`isolate_snapshot_data` and `isolate_snapshot_instructions` set to exactly the
two resolved addresses and the other out-parameters untouched. -/
theorem ExtractSnapshots_aot_exports (k : Kernel) (s : Snapshots) :
    (∀ lib, lib = k.dlopen_vmo (k.clone (toUint64 k.pagesize)
          (payloadSize k.get_size.2 k.pagesize)).2 →
        (k.dlsym lib "_kDartIsolateSnapshotData" = 0 ∨
          k.dlsym lib "_kDartIsolateSnapshotInstructions" = 0) →
        (Aot.ExtractSnapshots k s).ok = false) ∧
      (∀ lib, lib = k.dlopen_vmo (k.clone (toUint64 k.pagesize)
          (payloadSize k.get_size.2 k.pagesize)).2 →
        k.get_size.1 = ZX_OK →
        (k.clone (toUint64 k.pagesize) (payloadSize k.get_size.2 k.pagesize)).1 = ZX_OK →
        lib ≠ 0 →
        k.dlsym lib "_kDartIsolateSnapshotData" ≠ 0 →
        k.dlsym lib "_kDartIsolateSnapshotInstructions" ≠ 0 →
        (Aot.ExtractSnapshots k s).ok = true ∧
          (Aot.ExtractSnapshots k s).out =
            { s with
              isolate_snapshot_data := k.dlsym lib "_kDartIsolateSnapshotData"
              isolate_snapshot_instructions :=
                k.dlsym lib "_kDartIsolateSnapshotInstructions" }) := by
  constructor
  · intro lib hlib hnull
    subst hlib
    unfold Aot.ExtractSnapshots
    simp only []
    split
    · rfl
    · split
      · rfl
      · split
        · rfl
        · split
          · rfl
          · split
            · rfl
            · rename_i h1 h2
              rcases hnull with h | h
              · exact absurd h h1
              · exact absurd h h2
  · intro lib hlib hsize hclone hopen hdata hinstr
    subst hlib
    unfold Aot.ExtractSnapshots
    simp only [hsize, hclone, hopen, hdata, hinstr, ne_eq, not_true_eq_false, if_false]
    exact ⟨trivial, trivial⟩

/-- C4 on a bundle whose module exports both symbols, at 100 and 200. -/
theorem ExtractSnapshots_aot_exports_witness :
    (Aot.ExtractSnapshots aotBundle ⟨0, 0, 0, 0⟩).ok = true ∧
      (Aot.ExtractSnapshots aotBundle ⟨0, 0, 0, 0⟩).out = ⟨100, 200, 0, 0⟩ ∧
      (Aot.ExtractSnapshots { aotBundle with dlsym := fun _ _ => 0 } ⟨0, 0, 0, 0⟩).ok = false :=
  have h := (ExtractSnapshots_aot_exports aotBundle ⟨0, 0, 0, 0⟩).2 9 (by decide) (by decide)
    (by decide) (by decide) (by decide) (by decide)
  ⟨h.1, h.2,
   (ExtractSnapshots_aot_exports { aotBundle with dlsym := fun _ _ => 0 } ⟨0, 0, 0, 0⟩).1 9
     (by decide) (Or.inl (by decide))⟩

end dart_content_handler

namespace dart_snapshotter

/-! ## Command-line validation -/

theorem GetOptionValue_isSome (c : CommandLine) (name : String) :
    (c.GetOptionValue name).isSome = c.HasOption name := by
  unfold CommandLine.GetOptionValue CommandLine.HasOption
  rw [Bool.eq_iff_iff]
  cases h : List.find? (fun o => o.1 == name) c.options.reverse with
  | none =>
    have h2 := List.find?_eq_none.mp h
    simp only [Option.map_none', Option.isSome_none, List.any_eq_true]
    constructor
    · intro hf; cases hf
    · rintro ⟨o, ho, hp⟩
      exact absurd hp (h2 o (List.mem_reverse.mpr ho))
  | some v =>
    have h2 := List.find?_some h
    have h3 := List.mem_of_find?_eq_some h
    simp only [Option.map_some', Option.isSome_some, List.any_eq_true, true_iff]
    exact ⟨v, List.mem_reverse.mp h3, h2⟩

theorem GetOptionValue_eq_none (c : CommandLine) (name : String)
    (h : c.HasOption name = false) : c.GetOptionValue name = none := by
  have h1 := GetOptionValue_isSome c name
  rw [h] at h1
  cases hv : c.GetOptionValue name with
  | none => rfl
  | some v => rw [hv] at h1; cases h1

/-- C5, as amended: for every command line that carries `--depfile`, does not
carry `--build-output` and carries neither `--help` nor `--aot-vm-snapshot`,
`CreateSnapshot` returns exit code 1 without initialising the VM and writes no
file. -/
theorem CreateSnapshot_depfile_without_build_output (w : World) (c : CommandLine)
    (hdep : c.HasOption kDepfile = true) (hout : c.HasOption kBuildOutput = false)
    (hhelp : c.HasOption kHelp = false) (hvm : c.HasOption kAOTVMSnapshot = false) :
    (CreateSnapshot w c).exit = Exit.code 1 ∧ writes (CreateSnapshot w c).trace = [] ∧
      Ev.initDartVM ∉ (CreateSnapshot w c).trace := by
  have h1 : c.GetOptionValue kAOTVMSnapshot = none := GetOptionValue_eq_none c _ hvm
  have h2 : (c.GetOptionValue kBuildOutput).isSome = false := by
    rw [GetOptionValue_isSome]; exact hout
  have h3 : (c.GetOptionValue kDepfile).isSome = true := by
    rw [GetOptionValue_isSome]; exact hdep
  unfold CreateSnapshot
  simp only [hhelp, h1, h2, h3]
  repeat' split
  all_goals simp_all [writes]

/-- C5 as amended, on `--packages=.packages --snapshot=out.snapshot
--depfile=out.d main.dart`. -/
theorem CreateSnapshot_depfile_without_build_output_witness :
    (CreateSnapshot okWorld depfileOnlyLine).exit = Exit.code 1 ∧
      writes (CreateSnapshot okWorld depfileOnlyLine).trace = [] ∧
      Ev.initDartVM ∉ (CreateSnapshot okWorld depfileOnlyLine).trace :=
  CreateSnapshot_depfile_without_build_output okWorld depfileOnlyLine (by decide) (by decide)
    (by decide) (by decide)

/-- C5 fails as stated: `--help --depfile=out.d` and
`--aot-vm-snapshot=vm.S --depfile=out.d` both carry `--depfile` without
`--build-output`; the first returns 0, the second writes `vm.S` and returns 0. -/
theorem CreateSnapshot_depfile_counterexample :
    (helpDepfileLine.HasOption kDepfile = true ∧
        helpDepfileLine.HasOption kBuildOutput = false ∧
        (CreateSnapshot okWorld helpDepfileLine).exit = Exit.code 0) ∧
      (vmDepfileLine.HasOption kDepfile = true ∧
        vmDepfileLine.HasOption kBuildOutput = false ∧
        (CreateSnapshot okWorld vmDepfileLine).exit = Exit.code 0 ∧
        writes (CreateSnapshot okWorld vmDepfileLine).trace = ["vm.S"]) := by
  decide

/-- C9: for every command line that carries neither `--help` nor
`--aot-vm-snapshot`, if `--packages` is absent or the number of positional
arguments is not exactly one, `CreateSnapshot` returns exit code 1 without
initialising the VM and without writing any file. -/
theorem CreateSnapshot_usage_error (w : World) (c : CommandLine)
    (hhelp : c.HasOption kHelp = false) (hvm : c.HasOption kAOTVMSnapshot = false)
    (hbad : c.HasOption kPackages = false ∨ c.positional_args.length ≠ 1) :
    (CreateSnapshot w c).exit = Exit.code 1 ∧ Ev.initDartVM ∉ (CreateSnapshot w c).trace ∧
      writes (CreateSnapshot w c).trace = [] := by
  have h1 : c.GetOptionValue kAOTVMSnapshot = none := GetOptionValue_eq_none c _ hvm
  have h2 : c.HasOption kPackages = false → c.GetOptionValue kPackages = none :=
    GetOptionValue_eq_none c _
  unfold CreateSnapshot
  simp only [hhelp, h1]
  rcases hbad with h | h
  · rw [h2 h]
    repeat' split
    all_goals simp_all [writes]
  · cases hp : c.GetOptionValue kPackages <;>
    · simp only [h, ne_eq, not_false_eq_true, if_true]
      repeat' split
      all_goals simp_all [writes]

/-- C9 on `--snapshot=out.snapshot main.dart`, which lacks `--packages`. -/
theorem CreateSnapshot_usage_error_witness :
    (CreateSnapshot okWorld noPackagesLine).exit = Exit.code 1 ∧
      Ev.initDartVM ∉ (CreateSnapshot okWorld noPackagesLine).trace ∧
      writes (CreateSnapshot okWorld noPackagesLine).trace = [] :=
  CreateSnapshot_usage_error okWorld noPackagesLine (by decide) (by decide)
    (Or.inl (by decide))

/-- C10, the code at `--packages=.packages main.dart`: the usage text lists
`--snapshot=OUTPUT_SNAPSHOT` between square brackets, as optional, yet
`CreateSnapshot` reports that `--snapshot` is needed and returns 1 before the VM
is initialised. -/
theorem CreateSnapshot_rejects_missing_snapshot :
    "                      [ --snapshot=OUTPUT_SNAPSHOT ]" ∈ Usage ∧
      noSnapshotLine.HasOption kPackages = true ∧ noSnapshotLine.positional_args.length = 1 ∧
      noSnapshotLine.HasOption kSnapshot = false ∧
      noSnapshotLine.HasOption kDepfile = false ∧ noSnapshotLine.HasOption kHelp = false ∧
      noSnapshotLine.HasOption kAOTVMSnapshot = false ∧
      CreateSnapshot okWorld noSnapshotLine =
        ⟨[Ev.error "error: Need --snapshot."], Exit.code 1⟩ ∧
      Ev.initDartVM ∉ (CreateSnapshot okWorld noSnapshotLine).trace := by
  decide

/-! ## The dependency file -/

theorem stringLess_irrefl (a : String) : ¬ stringLess a a := by
  unfold stringLess
  exact List.lt_irrefl (fun x => lt_irrefl x) a.data

theorem StringSet.nodup (deps : StringSet) : deps.elems.Nodup := by
  have h := deps.ascending
  unfold List.Nodup
  refine h.imp ?_
  intro a b hab he
  subst he
  exact stringLess_irrefl a hab

theorem head_ne_slash_iff (d : String) :
    d.data.headD (Char.ofNat 0) ≠ '/' ↔ ¬ d.data.head? = some '/' := by
  cases hd : d.data with
  | nil => simp
  | cons x xs => simp

theorem depfile_file_eq (cwd d : String) :
    (if d.data.headD (Char.ofNat 0) ≠ '/' then cwd ++ "/" ++ d else d) =
      (if d.data.head? = some '/' then d else cwd ++ "/" ++ d) := by
  by_cases hs : d.data.head? = some '/'
  · rw [if_pos hs, if_neg (fun h => (head_ne_slash_iff d).mp h hs)]
  · rw [if_neg hs, if_pos ((head_ne_slash_iff d).mpr hs)]

theorem depfileLoop_cons (w : World) (cwd d : String) (rest : List String) (output : String)
    (hguard : (w.dcheckOn && d.data.isEmpty) = false) :
    depfileLoop w cwd (d :: rest) output =
      depfileLoop w cwd rest (output ++ (" " ++ depfileEntry cwd w.readSymbolicLink d)) := by
  rw [depfileLoop]
  simp only [hguard, Bool.false_eq_true, if_false]
  rw [depfile_file_eq]
  unfold depfileEntry
  dsimp only
  cases w.readSymbolicLink (if d.data.head? = some '/' then d else cwd ++ "/" ++ d) <;> rfl

theorem depfileLoop_eq (w : World) (cwd : String) :
    ∀ (ds : List String) (output : String),
      (w.dcheckOn = false ∨ ∀ d ∈ ds, d.data ≠ []) →
      depfileLoop w cwd ds output =
        some (output ++ depfileEntries cwd w.readSymbolicLink ds) := by
  intro ds
  induction ds with
  | nil =>
    intro output _
    simp [depfileLoop, depfileEntries]
  | cons d rest ih =>
    intro output hok
    have hrest : w.dcheckOn = false ∨ ∀ d ∈ rest, d.data ≠ [] := by
      rcases hok with h | h
      · exact Or.inl h
      · exact Or.inr fun x hx => h x (List.mem_cons_of_mem _ hx)
    have hguard : (w.dcheckOn && d.data.isEmpty) = false := by
      rcases hok with h | h
      · simp [h]
      · have := h d (List.mem_cons_self _ _)
        simp [this]
    rw [depfileLoop_cons w cwd d rest output hguard, ih _ hrest]
    rw [depfileEntries.eq_2]
    simp only [String.append_assoc]

theorem depfileEntries_chars (cwd : String) (link : String → Option String) :
    ∀ (ds : List String) (c : Char), c ∈ (depfileEntries cwd link ds).data →
      c = ' ' ∨ ∃ d ∈ ds, c ∈ (depfileEntry cwd link d).data := by
  intro ds
  induction ds with
  | nil => intro c hc; simp [depfileEntries] at hc
  | cons d rest ih =>
    intro c hc
    unfold depfileEntries at hc
    simp only [String.data_append, List.mem_append] at hc
    rcases hc with (hc | hc) | hc
    · left
      have hsp : c ∈ [' '] := hc
      simpa using hsp
    · exact Or.inr ⟨d, List.mem_cons_self _ _, hc⟩
    · rcases ih c hc with h | ⟨x, hx, hcx⟩
      · exact Or.inl h
      · exact Or.inr ⟨x, List.mem_cons_of_mem _ hx, hcx⟩

theorem depfileLoop_some (w : World) (cwd : String) :
    ∀ (ds : List String) (output r : String), depfileLoop w cwd ds output = some r →
      r = output ++ depfileEntries cwd w.readSymbolicLink ds := by
  intro ds
  induction ds with
  | nil =>
    intro output r h
    simp [depfileLoop] at h
    simp [depfileEntries, h]
  | cons d rest ih =>
    intro output r h
    cases hguard : (w.dcheckOn && d.data.isEmpty) with
    | true =>
      rw [depfileLoop] at h
      simp only [hguard, if_true] at h
      cases h
    | false =>
      rw [depfileLoop_cons w cwd d rest output hguard] at h
      rw [ih _ _ h, depfileEntries.eq_2]
      simp only [String.append_assoc]

/-- C7, as amended: the text `WriteDepfile` writes, for every build output `b`, dependency
set, current directory and symbolic-link lookup, is `b`, then ":", then, for each
dependency taken once in the ascending order of the set, one space and its entry:
the link target of `f` when `f` is a symbolic link and `f` otherwise, where `f`
is the dependency itself when it starts with '/' and the current directory, "/"
and the dependency otherwise. Whatever it writes goes to the given path with
that text; it does write it unless an `FTL_DCHECK` build meets an empty
dependency. For an empty set the text is `b` and ":". The code puts no line
break into the text: each of its characters comes from `b` or from an entry, or
is the colon or a separating space, so that the text is a single line with no
newline whenever `b` and the entries hold no newline. -/
theorem WriteDepfile_text (w : World) (path b : String) (deps : StringSet) :
    (∀ p data ok, Ev.writeFile p data ok ∈ (WriteDepfile w path b deps).1 →
        p = path ∧
          data = depfileText b deps.elems w.currentDirectory w.readSymbolicLink) ∧
      ((w.dcheckOn = false ∨ ∀ d ∈ deps.elems, d.data ≠ []) →
        WriteDepfile w path b deps =
          ([Ev.writeFile path
              (depfileText b deps.elems w.currentDirectory w.readSymbolicLink)
              (w.writeFile path
                (depfileText b deps.elems w.currentDirectory w.readSymbolicLink))],
           some (w.writeFile path
              (depfileText b deps.elems w.currentDirectory w.readSymbolicLink)))) ∧
      deps.elems.Pairwise stringLess ∧ deps.elems.Nodup ∧
      (deps.elems = [] →
        depfileText b deps.elems w.currentDirectory w.readSymbolicLink = b ++ ":") ∧
      (∀ c ∈ (depfileText b deps.elems w.currentDirectory w.readSymbolicLink).data,
        c ∈ b.data ∨ c = ':' ∨ c = ' ' ∨
          ∃ d ∈ deps.elems,
            c ∈ (depfileEntry w.currentDirectory w.readSymbolicLink d).data) ∧
      ('\n' ∉ b.data →
        (∀ d ∈ deps.elems,
          '\n' ∉ (depfileEntry w.currentDirectory w.readSymbolicLink d).data) →
        '\n' ∉ (depfileText b deps.elems w.currentDirectory w.readSymbolicLink).data) := by
  have hchars : ∀ c ∈ (depfileText b deps.elems w.currentDirectory w.readSymbolicLink).data,
      c ∈ b.data ∨ c = ':' ∨ c = ' ' ∨
        ∃ d ∈ deps.elems,
          c ∈ (depfileEntry w.currentDirectory w.readSymbolicLink d).data := by
    intro c hc
    unfold depfileText at hc
    simp only [String.data_append, List.mem_append] at hc
    rcases hc with (hc | hc) | hc
    · exact Or.inl hc
    · right; left
      have hcol : c ∈ [':'] := hc
      simpa using hcol
    · rcases depfileEntries_chars _ _ _ c hc with h | h
      · exact Or.inr (Or.inr (Or.inl h))
      · exact Or.inr (Or.inr (Or.inr h))
  refine ⟨?_, ?_, deps.ascending, deps.nodup, ?_, hchars, ?_⟩
  · intro p data ok hmem
    unfold WriteDepfile at hmem
    cases hl : depfileLoop w w.currentDirectory deps.elems (b ++ ":") with
    | none =>
      simp only [hl] at hmem
      simp at hmem
    | some r =>
      simp only [hl] at hmem
      have hr := depfileLoop_some w w.currentDirectory deps.elems (b ++ ":") r hl
      simp only [List.mem_singleton, Ev.writeFile.injEq] at hmem
      obtain ⟨h1, h2, _⟩ := hmem
      refine ⟨h1, ?_⟩
      rw [h2, hr]
      rfl
  · intro hok
    unfold WriteDepfile
    simp only [depfileLoop_eq w w.currentDirectory deps.elems (b ++ ":") hok]
    rfl
  · intro hempty
    rw [hempty]
    unfold depfileText depfileEntries
    exact String.append_empty _
  · intro hb hent hmem
    rcases hchars _ hmem with h | h | h | ⟨d, hd, hc⟩
    · exact hb h
    · exact absurd h (by decide)
    · exact absurd h (by decide)
    · exact hent d hd hc

/-- C7 as amended, on the two dependencies `/src/link.dart` (a link to `real.dart`) and
`main.dart`, in `/work`: the text is `out.snapshot: real.dart /work/main.dart`. -/
theorem WriteDepfile_text_witness :
    WriteDepfile okWorld "out.d" "out.snapshot" okWorld.dependencies =
        ([Ev.writeFile "out.d" "out.snapshot: real.dart /work/main.dart" true], some true) ∧
      depfileText "out.snapshot" okWorld.dependencies.elems okWorld.currentDirectory
          okWorld.readSymbolicLink = "out.snapshot: real.dart /work/main.dart" ∧
      '\n' ∉ (depfileText "out.snapshot" okWorld.dependencies.elems okWorld.currentDirectory
          okWorld.readSymbolicLink).data :=
  have h : depfileText "out.snapshot" okWorld.dependencies.elems okWorld.currentDirectory
      okWorld.readSymbolicLink = "out.snapshot: real.dart /work/main.dart" := by decide
  ⟨((WriteDepfile_text okWorld "out.d" "out.snapshot" okWorld.dependencies).2.1
      (Or.inl rfl)).trans (by rw [h]; rfl), h,
   (WriteDepfile_text okWorld "out.d" "out.snapshot" okWorld.dependencies).2.2.2.2.2.2
     (by decide) (by decide)⟩

/-- C7 fails as stated: for the build output made of `out`, a line break and
`put`, and the empty dependency set, `WriteDepfile` writes the build output
verbatim, then ":", so that the text holds a newline. -/
theorem WriteDepfile_text_counterexample :
    WriteDepfile okWorld "out.d" "out\nput" ⟨[], List.Pairwise.nil⟩ =
        ([Ev.writeFile "out.d" "out\nput:" true], some true) ∧
      '\n' ∈ "out\nput:".data := by
  decide

/-- C8, the code on the dependency `/src/link.dart`, a symbolic link whose target
is the relative path `real.dart`, with the current directory `/work`: the
dependencies are non-empty and the current directory is absolute, yet the entry
written for the link is `real.dart`, which does not begin with '/'. -/
theorem WriteDepfile_relative_link_target :
    (∀ d ∈ okWorld.dependencies.elems, d.data ≠ []) ∧
      okWorld.currentDirectory.data.head? = some '/' ∧
      okWorld.readSymbolicLink "/src/link.dart" = some "real.dart" ∧
      WriteDepfile okWorld "out.d" "out.snapshot" okWorld.dependencies =
        ([Ev.writeFile "out.d" "out.snapshot: real.dart /work/main.dart" true],
         some true) ∧
      depfileEntry okWorld.currentDirectory okWorld.readSymbolicLink "/src/link.dart" =
        "real.dart" ∧
      "real.dart".data.head? ≠ some '/' := by
  decide

/-! ## The VM-image-only path -/

/-- C6: for every command line that carries `--aot-vm-snapshot=<path>` and not
`--help` (in particular one without positional argument and without
`--packages`), `CreateSnapshot` takes the VM-image-only path
`CreateAOTVMSnapshot(<path>)`, whatever other options are present. Every file it
writes is `<path>`, and it writes at most one, so neither an application
snapshot nor a depfile; whenever the write of `<path>` succeeds it returns 0.
When the VM is set up and yields the VM image, the write is attempted, so that
with a successful write the run writes exactly `<path>` and returns 0. -/
theorem CreateSnapshot_vm_image_only (w : World) (c : CommandLine) (path : String)
    (hvm : c.GetOptionValue kAOTVMSnapshot = some path) (hhelp : c.HasOption kHelp = false) :
    CreateSnapshot w c = CreateAOTVMSnapshot w path ∧
      (∀ p ∈ writes (CreateSnapshot w c).trace, p = path) ∧
      (writes (CreateSnapshot w c).trace).length ≤ 1 ∧
      (∀ data, Ev.writeFile path data true ∈ (CreateSnapshot w c).trace →
        (CreateSnapshot w c).exit = Exit.code 0) ∧
      (∀ image, w.setVMFlags = true → w.initializeError = none →
        w.isolate_snapshot_buffer ≠ 0 → w.createIsolate ≠ 0 →
        w.vmAOTSnapshot = some image → w.writeFile path image = true →
        (CreateSnapshot w c).exit = Exit.code 0 ∧
          writes (CreateSnapshot w c).trace = [path]) := by
  have hrun : CreateSnapshot w c = CreateAOTVMSnapshot w path := by
    unfold CreateSnapshot
    simp only [hhelp, hvm, Bool.false_eq_true, if_false]
  rw [hrun]
  refine ⟨rfl, ?_, ?_, ?_, ?_⟩
  · intro p hp
    unfold CreateAOTVMSnapshot InitDartVM CreateDartIsolate at hp
    revert hp
    repeat' split
    all_goals simp_all [writes]
  · unfold CreateAOTVMSnapshot InitDartVM CreateDartIsolate
    repeat' split
    all_goals simp_all [writes]
  · intro data
    unfold CreateAOTVMSnapshot InitDartVM CreateDartIsolate
    repeat' split
    all_goals simp_all
  · intro image h1 h2 h3 h4 h5 h6
    unfold CreateAOTVMSnapshot InitDartVM CreateDartIsolate
    simp [h1, h2, h3, h4, h5, h6, writes]

/-- C6 on `--aot-vm-snapshot=vm.S --snapshot=out.snapshot --depfile=out.d
--build-output=out`: only `vm.S` is written and the exit code is 0. -/
theorem CreateSnapshot_vm_image_only_witness :
    vmOnlyLine.positional_args = [] ∧ vmOnlyLine.HasOption kPackages = false ∧
      (CreateSnapshot okWorld vmOnlyLine).exit = Exit.code 0 ∧
      writes (CreateSnapshot okWorld vmOnlyLine).trace = ["vm.S"] :=
  ⟨by decide, by decide,
   (CreateSnapshot_vm_image_only okWorld vmOnlyLine "vm.S" (by decide) (by decide)).2.2.2.2
     "vm-image" (by decide) (by decide) (by decide) (by decide) (by decide) (by decide)⟩

end dart_snapshotter

namespace dart_content_handler

/-! ## The message loop of a launch -/

theorem postAll_eq (ids : List Nat) :
    ∀ loop : MessageLoop,
      postAll ids loop = { loop with queue := loop.queue ++ ids.map Task.app } := by
  unfold postAll
  induction ids with
  | nil => intro loop; simp
  | cons id rest ih =>
    intro loop
    rw [List.foldl_cons, ih]
    simp [MessageLoop.PostTask]

theorem entryPointTask_eq (a : Application) (l : Launch) (loop : MessageLoop) :
    entryPointTask a l loop =
      ⟨loop.queue ++ a.mainPosts.map Task.app, loop.should_quit || !l.main, loop.ran⟩ := by
  unfold entryPointTask
  rw [postAll_eq]
  cases l.main <;> simp [MessageLoop.PostQuitTask]

theorem launchLoop_zero (a : Application) (l : Launch) :
    launchLoop a l 0 = ⟨[Task.entryPoint], false, []⟩ := by
  simp [launchLoop, MessageLoop.Run, postAll, contextCreationPosts, MessageLoop.create,
    MessageLoop.PostTask]

theorem launchLoop_succ (a : Application) (l : Launch) (fuel : Nat) :
    launchLoop a l (fuel + 1) =
      MessageLoop.Run a l fuel ⟨a.mainPosts.map Task.app, !l.main, [Task.entryPoint]⟩ := by
  unfold launchLoop
  rw [MessageLoop.Run]
  simp [postAll, contextCreationPosts, MessageLoop.create, MessageLoop.PostTask, runTask,
    entryPointTask_eq]

theorem Run_endlessApp (l : Launch) :
    ∀ (fuel : Nat) (ran : List Task),
      (MessageLoop.Run endlessApp l fuel ⟨[Task.app 7], false, ran⟩).queue = [Task.app 7] ∧
        (MessageLoop.Run endlessApp l fuel ⟨[Task.app 7], false, ran⟩).should_quit = false := by
  intro fuel
  induction fuel with
  | zero => intro ran; exact ⟨rfl, rfl⟩
  | succ n ih =>
    intro ran
    rw [MessageLoop.Run]
    simp only [Bool.false_eq_true, if_false, runTask, postAll_eq, endlessApp, List.map_cons,
      List.map_nil, List.nil_append]
    exact ih (ran ++ [Task.app 7])

/-- Under the loop of the specification, the loop of a launch need not stop:
for the application whose task posts itself again, after a `Main` that
completes normally, `loop.Run()` has not returned after any number of tasks. -/
theorem launchLoop_endlessApp (l : Launch) (hm : l.main = true) (fuel : Nat) :
    (launchLoop endlessApp l fuel).stopped = false := by
  cases fuel with
  | zero => rw [launchLoop_zero]; rfl
  | succ n =>
    rw [launchLoop_succ, hm]
    have h := Run_endlessApp l n [Task.entryPoint]
    have hq : endlessApp.mainPosts.map Task.app = [Task.app 7] := rfl
    rw [hq]
    simp only [Bool.not_true]
    unfold MessageLoop.stopped
    rw [h.1, h.2]
    rfl

end dart_content_handler
